import Mathlib

/-!
Shallow embedding of the Go service in `main.go` (package main): two
gorm-backed repositories (courses and users/accounts), the error values
they return, and the gin HTTP handlers the claims refer to.

The store (Postgres via gorm) is modelled as an explicit state holding
the two tables as lists. Each gorm primitive takes a `fault` parameter:
`some e` means the underlying store call fails with the store-native
error `e` (network failure, constraint violation signalled by the
driver, ...); `none` means the call executes its normal row semantics
on the state. Go's `(ptr, error)` return pairs become
`Option entity × Option GoErr`, with the post-call store state threaded
explicitly.
-/

set_option autoImplicit false

namespace Dip

/-- `uuid.UUID`: an opaque 128-bit token; modelled as a wrapped Nat.
`uuid.Parse` failure yields the zero UUID in Go, modelled by `Uuid.nil`. -/
structure Uuid where
  val : Nat
deriving DecidableEq, Repr

/-- The zero value `uuid.Nil` (what `uuid.Parse` returns on error). -/
def Uuid.nilU : Uuid := ⟨0⟩

/-- `type Course struct` of main.go: primary key `course_id`, unique `name`,
plus `url` and `text` columns. -/
structure Course where
  Id : Uuid
  Name : String
  URL : String
  Text : String
deriving DecidableEq, Repr

/-- The Go zero value `new(Course)`. -/
def zeroCourse : Course := ⟨Uuid.nilU, "", "", ""⟩

/-- `type User struct` of main.go: primary key `user_id`, unique `email`,
plus `password` and `role` columns. -/
structure User where
  Id : Uuid
  Email : String
  Password : String
  Role : Bool
deriving DecidableEq, Repr

/-- The Go zero value `new(User)`. -/
def zeroUser : User := ⟨Uuid.nilU, "", "", false⟩

/-- The store state: the two tables created by `db.AutoMigrate`. -/
structure DB where
  courses : List Course
  users : List User
deriving DecidableEq, Repr

/-- Store-native (gorm/driver) error values: the two sentinels the
repositories test with `errors.Is`, and every other driver error
(`other n` stands for an arbitrary distinct store failure). -/
inductive StoreErr where
  | duplicatedKey
  | recordNotFound
  | other (n : Nat)
deriving DecidableEq, Repr

/-- The Go `error` values that can flow out of the repository functions:
the six sentinels of the `var (...)` block in main.go, or a store-native
error passed through unchanged by a `default: return nil, err` branch. -/
inductive GoErr where
  | errNotFound
  | errAlreadyExist
  | errUnknown
  | errInvalidEntity
  | errInvalidField
  | errInvalidSQLRequest
  | storeErr (e : StoreErr)
deriving DecidableEq, Repr

/-- The six taxonomy kinds of spec section 4.4. -/
inductive Taxonomy where
  | NotFound
  | AlreadyExists
  | Unknown
  | InvalidEntity
  | InvalidField
  | InvalidSQLRequest
deriving DecidableEq, Repr

/-- How a caller holding an `error` value classifies it into the taxonomy,
mirroring the handlers' `switch { case errors.Is(err, Err...) ... }`
chains: each sentinel matches itself, and anything else (including any
store-native error passed through) falls to the `default` branch,
i.e. `Unknown`. -/
def classify : GoErr → Taxonomy
  | .errNotFound => .NotFound
  | .errAlreadyExist => .AlreadyExists
  | .errUnknown => .Unknown
  | .errInvalidEntity => .InvalidEntity
  | .errInvalidField => .InvalidField
  | .errInvalidSQLRequest => .InvalidSQLRequest
  | .storeErr _ => .Unknown

/-! ## gorm store primitives

Each primitive is the semantics of the gorm call used by exactly one
repository operation, with an injected fault channel for store errors
that do not arise from the row semantics themselves. -/

/-- `tr.Create(course)`: INSERT; Postgres signals `gorm.ErrDuplicatedKey`
when the primary key or the unique `name` column collides. -/
def gormCreateCourse (fault : Option StoreErr) (db : DB) (c : Course) :
    Except StoreErr DB :=
  match fault with
  | some e => .error e
  | none =>
    if db.courses.any (fun r => r.Id == c.Id || r.Name == c.Name) then
      .error .duplicatedKey
    else
      .ok { db with courses := db.courses ++ [c] }

/-- `tr.Create(user)`: INSERT; duplicate on primary key or unique `email`. -/
def gormCreateUser (fault : Option StoreErr) (db : DB) (u : User) :
    Except StoreErr DB :=
  match fault with
  | some e => .error e
  | none =>
    if db.users.any (fun r => r.Id == u.Id || r.Email == u.Email) then
      .error .duplicatedKey
    else
      .ok { db with users := db.users ++ [u] }

/-- `tr.First(course, "course_id = ?", id)`: first matching row, or
`gorm.ErrRecordNotFound` when no row matches. -/
def gormFirstCourse (fault : Option StoreErr) (db : DB) (id : Uuid) :
    Except StoreErr Course :=
  match fault with
  | some e => .error e
  | none =>
    match db.courses.find? (fun r => r.Id == id) with
    | some c => .ok c
    | none => .error .recordNotFound

/-- `tr.First(user, "user_id = ?", id)`. -/
def gormFirstUser (fault : Option StoreErr) (db : DB) (id : Uuid) :
    Except StoreErr User :=
  match fault with
  | some e => .error e
  | none =>
    match db.users.find? (fun r => r.Id == id) with
    | some u => .ok u
    | none => .error .recordNotFound

/-- `tr.First(user, "email = ?", email)`: the sign-in lookup. -/
def gormFirstUserByEmail (fault : Option StoreErr) (db : DB) (email : String) :
    Except StoreErr User :=
  match fault with
  | some e => .error e
  | none =>
    match db.users.find? (fun r => r.Email == email) with
    | some u => .ok u
    | none => .error .recordNotFound

/-- `tr.Find(&courses)`: SELECT all rows; never `ErrRecordNotFound`. -/
def gormFindCourses (fault : Option StoreErr) (db : DB) :
    Except StoreErr (List Course) :=
  match fault with
  | some e => .error e
  | none => .ok db.courses

/-- `tr.Model(course).Where("course_id = ?", course.Id).Updates(map(name,
url, text))`: UPDATE of exactly those three columns on the matching rows;
the result carries the new state and `RowsAffected`. A unique-constraint
failure raised by the store on the UPDATE is covered by the fault channel. -/
def gormUpdatesCourse (fault : Option StoreErr) (db : DB) (c : Course) :
    Except StoreErr (DB × Nat) :=
  match fault with
  | some e => .error e
  | none =>
    let n := (db.courses.filter (fun r => r.Id == c.Id)).length
    .ok ({ db with courses := db.courses.map (fun r =>
      if r.Id == c.Id then { r with Name := c.Name, URL := c.URL, Text := c.Text }
      else r) }, n)

/-- `tr.Model(user).Where("user_id = ?", user.Id).Updates(map(email,
password))`: UPDATE of exactly the `email` and `password` columns. -/
def gormUpdatesUser (fault : Option StoreErr) (db : DB) (u : User) :
    Except StoreErr (DB × Nat) :=
  match fault with
  | some e => .error e
  | none =>
    let n := (db.users.filter (fun r => r.Id == u.Id)).length
    .ok ({ db with users := db.users.map (fun r =>
      if r.Id == u.Id then { r with Email := u.Email, Password := u.Password }
      else r) }, n)

/-- `tr.Clauses(clause.Returning{}).Where("course_id = ?", id).Delete(course)`:
DELETE with RETURNING; yields the new state, `RowsAffected`, and the
deleted row (which RETURNING writes into the passed model struct). -/
def gormDeleteCourse (fault : Option StoreErr) (db : DB) (id : Uuid) :
    Except StoreErr (DB × Nat × Option Course) :=
  match fault with
  | some e => .error e
  | none =>
    let hit := db.courses.filter (fun r => r.Id == id)
    .ok ({ db with courses := db.courses.filter (fun r => !(r.Id == id)) },
         hit.length, hit.head?)

/-- `tr.Clauses(clause.Returning{}).Where("user_id = ?", id).Delete(user)`. -/
def gormDeleteUser (fault : Option StoreErr) (db : DB) (id : Uuid) :
    Except StoreErr (DB × Nat × Option User) :=
  match fault with
  | some e => .error e
  | none =>
    let hit := db.users.filter (fun r => r.Id == id)
    .ok ({ db with users := db.users.filter (fun r => !(r.Id == id)) },
         hit.length, hit.head?)

/-! ## Repository functions (BD COURSE / BD USER sections of main.go)

Each returns the post-call store state together with Go's
`(*Entity, error)` pair as `Option Entity × Option GoErr`. -/

/-- `func CreateCourse`: maps `gorm.ErrDuplicatedKey` to `ErrAlreadyExist`,
passes any other store error through, returns the input course on success. -/
def CreateCourse (fault : Option StoreErr) (db : DB) (course : Course) :
    DB × Option Course × Option GoErr :=
  match gormCreateCourse fault db course with
  | .error e =>
    if e = .duplicatedKey then (db, none, some .errAlreadyExist)
    else (db, none, some (.storeErr e))
  | .ok db2 => (db2, some course, none)

/-- `func GetCourse`: maps `gorm.ErrRecordNotFound` to `ErrNotFound`,
passes any other store error through. -/
def GetCourse (fault : Option StoreErr) (db : DB) (courseId : Uuid) :
    DB × Option Course × Option GoErr :=
  match gormFirstCourse fault db courseId with
  | .error e =>
    if e = .recordNotFound then (db, none, some .errNotFound)
    else (db, none, some (.storeErr e))
  | .ok c => (db, some c, none)

/-- `func GetCourses`: starts from `make([]*Course, 0, 0)`; on a store
error returns `nil` slice and the raw error, else the full row list. -/
def GetCourses (fault : Option StoreErr) (db : DB) :
    DB × Option (List Course) × Option GoErr :=
  match gormFindCourses fault db with
  | .error e => (db, none, some (.storeErr e))
  | .ok rows => (db, some rows, none)

/-- `func UpdateCourse`: on store error maps `ErrRecordNotFound` to
`ErrNotFound` else passes the error through; on success with
`RowsAffected == 0` returns `ErrNotFound`; otherwise returns the input. -/
def UpdateCourse (fault : Option StoreErr) (db : DB) (course : Course) :
    DB × Option Course × Option GoErr :=
  match gormUpdatesCourse fault db course with
  | .error e =>
    if e = .recordNotFound then (db, none, some .errNotFound)
    else (db, none, some (.storeErr e))
  | .ok (db2, n) =>
    if n = 0 then (db2, none, some .errNotFound)
    else (db2, some course, none)

/-- `func DeleteCourse`: DELETE with RETURNING into a zeroed
`new(Course)`; zero rows affected maps to `ErrNotFound`; on success the
struct populated by RETURNING is returned. -/
def DeleteCourse (fault : Option StoreErr) (db : DB) (userId : Uuid) :
    DB × Option Course × Option GoErr :=
  match gormDeleteCourse fault db userId with
  | .error e =>
    if e = .recordNotFound then (db, none, some .errNotFound)
    else (db, none, some (.storeErr e))
  | .ok (db2, n, ret) =>
    if n = 0 then (db2, none, some .errNotFound)
    else (db2, some (ret.getD zeroCourse), none)

/-- `func CreateUser`: same shape as `CreateCourse`. -/
def CreateUser (fault : Option StoreErr) (db : DB) (user : User) :
    DB × Option User × Option GoErr :=
  match gormCreateUser fault db user with
  | .error e =>
    if e = .duplicatedKey then (db, none, some .errAlreadyExist)
    else (db, none, some (.storeErr e))
  | .ok db2 => (db2, some user, none)

/-- `func GetUser`: same shape as `GetCourse`. -/
def GetUser (fault : Option StoreErr) (db : DB) (userId : Uuid) :
    DB × Option User × Option GoErr :=
  match gormFirstUser fault db userId with
  | .error e =>
    if e = .recordNotFound then (db, none, some .errNotFound)
    else (db, none, some (.storeErr e))
  | .ok u => (db, some u, none)

/-- `func Auth`: lookup by email; `ErrRecordNotFound` maps to
`ErrNotFound`, other store errors pass through. -/
def Auth (fault : Option StoreErr) (db : DB) (email : String) :
    DB × Option User × Option GoErr :=
  match gormFirstUserByEmail fault db email with
  | .error e =>
    if e = .recordNotFound then (db, none, some .errNotFound)
    else (db, none, some (.storeErr e))
  | .ok u => (db, some u, none)

/-- `func UpdateUser`: updates exactly `email` and `password`; zero rows
affected maps to `ErrNotFound`; on success returns the input user. -/
def UpdateUser (fault : Option StoreErr) (db : DB) (user : User) :
    DB × Option User × Option GoErr :=
  match gormUpdatesUser fault db user with
  | .error e =>
    if e = .recordNotFound then (db, none, some .errNotFound)
    else (db, none, some (.storeErr e))
  | .ok (db2, n) =>
    if n = 0 then (db2, none, some .errNotFound)
    else (db2, some user, none)

/-- `func DeleteUser`: same shape as `DeleteCourse`. -/
def DeleteUser (fault : Option StoreErr) (db : DB) (userId : Uuid) :
    DB × Option User × Option GoErr :=
  match gormDeleteUser fault db userId with
  | .error e =>
    if e = .recordNotFound then (db, none, some .errNotFound)
    else (db, none, some (.storeErr e))
  | .ok (db2, n, ret) =>
    if n = 0 then (db2, none, some .errNotFound)
    else (db2, some (ret.getD zeroUser), none)

/-! ## Boundary adapter (gin handlers of `func main`)

Only the handlers the claims refer to are embedded. A handler may call
`c.JSON` several times because the error branches do not `return`, so an
execution yields the list of responses written in order; dereferencing a
nil pointer aborts the handler with a runtime panic, modelled by
`nilDerefAfter` carrying the responses already written. `uuid.Parse` is
modelled by an `Option Uuid` argument (`none` = parse error, after which
the Go variable holds the zero UUID). -/

/-- One `c.JSON` call: `OK`, `BadRequest` or `Internal` from main.go. -/
inductive Resp where
  | okCourse (c : Option Course)
  | okUser (u : Option User)
  | badRequest (msg : String)
  | internal (msg : String)
deriving DecidableEq, Repr

/-- Result of running a handler body. -/
inductive HandlerOutcome where
  | responses (rs : List Resp)
  | nilDerefAfter (rs : List Resp)
deriving DecidableEq, Repr

/-- `type SignInInput struct` (already JSON-decoded). -/
structure SignInInput where
  Email : String
  Password : String
  Role : Bool
deriving DecidableEq, Repr

/-- The `r.POST("/signIn", ...)` handler body after JSON binding: calls
`Auth`; on error writes `BadRequest` or `Internal` but does not return,
then unconditionally evaluates `req.Email == res.Email && req.Password ==
res.Password` — a nil dereference whenever `res` is nil. -/
def signInHandler (fault : Option StoreErr) (db : DB) (req : SignInInput) :
    DB × HandlerOutcome :=
  let (db2, res, err) := Auth fault db req.Email
  let rs : List Resp :=
    match err with
    | some e =>
      if e = .errNotFound then [.badRequest "NotFound"]
      else [.internal "Unknown error"]
    | none => []
  match res with
  | none => (db2, .nilDerefAfter rs)
  | some u =>
    if req.Email = u.Email ∧ req.Password = u.Password then
      (db2, .responses (rs ++ [.okUser (some u)]))
    else
      (db2, .responses (rs ++ [.badRequest "Invalid email or password"]))

/-- The `r.POST("/getCourse", ...)` handler body after JSON binding:
parses the id (writing `BadRequest` on failure without returning), calls
`GetCourse`, writes the error response on failure without returning, and
finally writes `OK(c, res)`. -/
def getCourseHandler (fault : Option StoreErr) (db : DB) (pid : Option Uuid) :
    DB × HandlerOutcome :=
  let rs0 : List Resp :=
    match pid with
    | none => [.badRequest "Invalid id"]
    | some _ => []
  let id := pid.getD Uuid.nilU
  let (db2, res, err) := GetCourse fault db id
  let rs1 : List Resp :=
    match err with
    | some e =>
      if e = .errNotFound then rs0 ++ [.badRequest "ErrNotFound"]
      else rs0 ++ [.internal "Unknown error"]
    | none => rs0
  (db2, .responses (rs1 ++ [.okCourse res]))

/-- The `r.POST("/deleteCourse", ...)` handler body after JSON binding:
identical shape to the getCourse handler but calling `DeleteCourse`. -/
def deleteCourseHandler (fault : Option StoreErr) (db : DB) (pid : Option Uuid) :
    DB × HandlerOutcome :=
  let rs0 : List Resp :=
    match pid with
    | none => [.badRequest "Invalid id"]
    | some _ => []
  let id := pid.getD Uuid.nilU
  let (db2, res, err) := DeleteCourse fault db id
  let rs1 : List Resp :=
    match err with
    | some e =>
      if e = .errNotFound then rs0 ++ [.badRequest "ErrNotFound"]
      else rs0 ++ [.internal "Unknown error"]
    | none => rs0
  (db2, .responses (rs1 ++ [.okCourse res]))

/-! ## Helper definitions and lemmas shared across claims -/

/-- A Go `(ptr, error)` pair (or `(slice, error)` pair) is exclusive:
exactly one of the two components is non-nil. -/
def exclusive {α : Type} (p : Option α × Option GoErr) : Prop :=
  (p.1.isSome ∧ p.2 = none) ∨ (p.1 = none ∧ p.2.isSome)

/-- Every error in `err` classifies into the three taxonomy kinds the
repositories actually produce. -/
def producedTaxonomy (err : Option GoErr) : Prop :=
  ∀ g, err = some g →
    classify g = .NotFound ∨ classify g = .AlreadyExists ∨ classify g = .Unknown

theorem find?_eq_head_filter {α : Type} (p : α → Bool) (l : List α) :
    l.find? p = (l.filter p).head? := by
  induction l with
  | nil => rfl
  | cons a t ih =>
    by_cases h : p a = true
    · rw [List.find?_cons_of_pos _ h, List.filter_cons_of_pos h]; rfl
    · rw [List.find?_cons_of_neg _ h, List.filter_cons_of_neg h, ih]

/-- Concrete sample rows for counterexamples and witnesses. -/
def sampleCourse : Course := ⟨⟨1⟩, "algo-101", "https://x/algo", "intro"⟩

def sampleUser : User := ⟨⟨5⟩, "a@x.io", "pw1", true⟩

def sampleDB : DB := ⟨[sampleCourse], [sampleUser]⟩

/-! ## Claims -/

/-- Claim C10: there is a sign-in input (an email with no matching stored
account) on which the sign-in handler, after `Auth` fails with
`ErrNotFound` and writes the BadRequest response, keeps executing and
dereferences the nil `res` pointer at `res.Email`. -/
theorem signIn_nil_deref :
    signInHandler none ⟨[], []⟩ ⟨"a@b.c", "pw", false⟩ =
      (⟨[], []⟩, .nilDerefAfter [.badRequest "NotFound"]) := by
  rfl

/-- Claim C7, counterexample: the handler registered for "getCourse" does
NOT invoke the delete path — on a store holding one course it behaves
differently from the delete handler: the course is still stored
afterwards, while the delete path removes it. -/
theorem getCourse_handler_not_delete :
    getCourseHandler none sampleDB (some ⟨1⟩) ≠
      deleteCourseHandler none sampleDB (some ⟨1⟩) ∧
    (getCourseHandler none sampleDB (some ⟨1⟩)).1.courses = [sampleCourse] ∧
    (deleteCourseHandler none sampleDB (some ⟨1⟩)).1.courses = [] := by
  refine ⟨?_, rfl, rfl⟩
  intro h
  have : ([sampleCourse] : List Course) = [] := congrArg (fun q => q.1.courses) h
  simp at this

/-- Claim C7, amended: the handler registered for "getCourse" invokes the
read path (`GetCourse`): it never changes the store, and when the id
parses and a matching course is stored (and the store does not fail) its
only response is OK with that course. -/
theorem getCourse_handler_is_read (fault : Option StoreErr) (db : DB)
    (pid : Option Uuid) :
    (getCourseHandler fault db pid).1 = db ∧
    (∀ id c, pid = some id →
      db.courses.find? (fun r => r.Id == id) = some c →
      fault = none →
      (getCourseHandler fault db pid).2 = .responses [.okCourse (some c)]) := by
  constructor
  · unfold getCourseHandler GetCourse gormFirstCourse
    cases fault with
    | some e => by_cases he : e = StoreErr.recordNotFound <;> simp [he]
    | none =>
      cases h : db.courses.find? (fun r => r.Id == pid.getD Uuid.nilU) <;> simp [h]
  · intro id c hp hf hfault
    subst hp hfault
    unfold getCourseHandler GetCourse gormFirstCourse
    simp [hf]

/-- Witness for the amended C7 on the concrete store: the getCourse
handler leaves the store as it was and responds OK with the stored
course. -/
theorem getCourse_handler_is_read_witness :
    (getCourseHandler none sampleDB (some ⟨1⟩)).1 = sampleDB ∧
    (getCourseHandler none sampleDB (some ⟨1⟩)).2 =
      .responses [.okCourse (some sampleCourse)] :=
  ⟨(getCourse_handler_is_read none sampleDB (some ⟨1⟩)).1,
   (getCourse_handler_is_read none sampleDB (some ⟨1⟩)).2 ⟨1⟩ sampleCourse rfl
     (by decide) rfl⟩

theorem map_id_of_forall {α : Type} (f : α → α) (l : List α)
    (h : ∀ x ∈ l, f x = x) : l.map f = l := by
  induction l with
  | nil => rfl
  | cons a t ih =>
    simp only [List.map_cons, h a (List.mem_cons_self a t)]
    rw [ih fun x hx => h x (List.mem_cons_of_mem a hx)]

/-- Claim C1: lookup, update and delete on an identifier matching no
stored row (course or account) all return `ErrNotFound` with a nil
entity and an unchanged store; for update and delete the store call
itself succeeds with zero affected rows, and that zero-affected outcome
is mapped to `ErrNotFound`, never treated as success. -/
theorem notFound_symmetry (db : DB) (id : Uuid) (c : Course) (u : User)
    (hc : ∀ r ∈ db.courses, r.Id ≠ id)
    (hu : ∀ r ∈ db.users, r.Id ≠ id)
    (hcid : c.Id = id) (huid : u.Id = id) :
    GetCourse none db id = (db, none, some .errNotFound) ∧
    UpdateCourse none db c = (db, none, some .errNotFound) ∧
    DeleteCourse none db id = (db, none, some .errNotFound) ∧
    GetUser none db id = (db, none, some .errNotFound) ∧
    UpdateUser none db u = (db, none, some .errNotFound) ∧
    DeleteUser none db id = (db, none, some .errNotFound) := by
  subst hcid
  have hu2 : ∀ r ∈ db.users, r.Id ≠ u.Id := fun r hr => by
    rw [huid]; exact hu r hr
  have hcf : db.courses.find? (fun r => r.Id == c.Id) = none :=
    List.find?_eq_none.mpr fun x hx => by simp [hc x hx]
  have hcfil : db.courses.filter (fun r => r.Id == c.Id) = [] :=
    List.filter_eq_nil_iff.mpr fun x hx => by simp [hc x hx]
  have hcfil2 : db.courses.filter (fun r => !(r.Id == c.Id)) = db.courses :=
    List.filter_eq_self.mpr fun x hx => by simp [hc x hx]
  have hcmap : db.courses.map (fun r =>
      if r.Id = c.Id then { r with Name := c.Name, URL := c.URL, Text := c.Text }
      else r) = db.courses :=
    map_id_of_forall _ _ fun x hx => by simp [hc x hx]
  have huf : db.users.find? (fun r => r.Id == c.Id) = none :=
    List.find?_eq_none.mpr fun x hx => by simp [hu x hx]
  have hufil : db.users.filter (fun r => r.Id == u.Id) = [] :=
    List.filter_eq_nil_iff.mpr fun x hx => by simp [hu2 x hx]
  have hufil2 : db.users.filter (fun r => !(r.Id == c.Id)) = db.users :=
    List.filter_eq_self.mpr fun x hx => by simp [hu x hx]
  have humap : db.users.map (fun r =>
      if r.Id = u.Id then { r with Email := u.Email, Password := u.Password }
      else r) = db.users :=
    map_id_of_forall _ _ fun x hx => by simp [hu2 x hx]
  refine ⟨?_, ?_, ?_, ?_, ?_, ?_⟩
  · simp [GetCourse, gormFirstCourse, hcf]
  · simp [UpdateCourse, gormUpdatesCourse, hcfil, hcmap]
  · simp [DeleteCourse, gormDeleteCourse, hcfil, hcfil2]
  · simp [GetUser, gormFirstUser, huf]
  · simp [UpdateUser, gormUpdatesUser, hufil, humap]
  · simp [DeleteUser, gormDeleteUser, hufil, hufil2]
    exact hu

/-- Witness for C1 at a concrete store holding one course and one user,
queried with an identifier stored nowhere. -/
theorem notFound_symmetry_witness :
    GetCourse none sampleDB ⟨2⟩ = (sampleDB, none, some .errNotFound) ∧
    UpdateCourse none sampleDB ⟨⟨2⟩, "n", "u", "t"⟩ =
      (sampleDB, none, some .errNotFound) ∧
    DeleteCourse none sampleDB ⟨2⟩ = (sampleDB, none, some .errNotFound) ∧
    GetUser none sampleDB ⟨2⟩ = (sampleDB, none, some .errNotFound) ∧
    UpdateUser none sampleDB ⟨⟨2⟩, "e", "p", false⟩ =
      (sampleDB, none, some .errNotFound) ∧
    DeleteUser none sampleDB ⟨2⟩ = (sampleDB, none, some .errNotFound) :=
  notFound_symmetry sampleDB ⟨2⟩ ⟨⟨2⟩, "n", "u", "t"⟩ ⟨⟨2⟩, "e", "p", false⟩
    (by decide) (by decide) rfl rfl

/-- Claim C4: deleting a stored entity by its identifier returns exactly
the row as stored immediately before deletion (the struct populated by
the DELETE ... RETURNING clause), with no error — never the zeroed
`new(...)` placeholder or a locally reconstructed value. -/
theorem delete_returns_prior (db : DB) (id : Uuid) (c : Course) (u : User)
    (hc : db.courses.find? (fun r => r.Id == id) = some c)
    (hu : db.users.find? (fun r => r.Id == id) = some u) :
    (DeleteCourse none db id).2 = (some c, none) ∧
    (DeleteUser none db id).2 = (some u, none) := by
  have h1 : (db.courses.filter (fun r => r.Id == id)).head? = some c := by
    rw [← find?_eq_head_filter]; exact hc
  have h2 : ¬ db.courses.filter (fun r => r.Id == id) = [] := by
    intro h; rw [h] at h1; simp at h1
  have h3 : (db.users.filter (fun r => r.Id == id)).head? = some u := by
    rw [← find?_eq_head_filter]; exact hu
  have h4 : ¬ db.users.filter (fun r => r.Id == id) = [] := by
    intro h; rw [h] at h3; simp at h3
  constructor
  · simp [DeleteCourse, gormDeleteCourse, h1, List.length_eq_zero, h2]
  · simp [DeleteUser, gormDeleteUser, h3, List.length_eq_zero, h4]

/-- Witness for C4 on the concrete store: deleting the stored course and
the stored user returns their exact prior contents. -/
theorem delete_returns_prior_witness :
    (DeleteCourse none sampleDB ⟨1⟩).2 = (some sampleCourse, none) ∧
    (DeleteUser none ⟨[sampleCourse], [⟨⟨1⟩, "a@x.io", "pw1", true⟩]⟩ ⟨1⟩).2 =
      (some ⟨⟨1⟩, "a@x.io", "pw1", true⟩, none) :=
  delete_returns_prior ⟨[sampleCourse], [⟨⟨1⟩, "a@x.io", "pw1", true⟩]⟩ ⟨1⟩
    sampleCourse ⟨⟨1⟩, "a@x.io", "pw1", true⟩ (by decide) (by decide)

/-- Claim C2: for both create operations, a duplicate-key store failure
(whether signalled by the driver or arising from a stored collision on
the unique columns) is returned as `ErrAlreadyExist`; every other store
error is passed through and classifies as `Unknown`; and every failure of
create classifies as `AlreadyExists` or `Unknown` — never anything else. -/
theorem create_error_mapping (fault : Option StoreErr) (db : DB)
    (c : Course) (u : User) :
    (fault = some .duplicatedKey →
      (CreateCourse fault db c).2.2 = some .errAlreadyExist ∧
      (CreateUser fault db u).2.2 = some .errAlreadyExist) ∧
    (fault = none → (∃ r ∈ db.courses, r.Id = c.Id ∨ r.Name = c.Name) →
      (CreateCourse fault db c).2.2 = some .errAlreadyExist) ∧
    (fault = none → (∃ r ∈ db.users, r.Id = u.Id ∨ r.Email = u.Email) →
      (CreateUser fault db u).2.2 = some .errAlreadyExist) ∧
    (∀ e, fault = some e → ¬ e = StoreErr.duplicatedKey →
      (CreateCourse fault db c).2.2 = some (.storeErr e) ∧
      (CreateUser fault db u).2.2 = some (.storeErr e) ∧
      classify (.storeErr e) = .Unknown) ∧
    (∀ g, (CreateCourse fault db c).2.2 = some g →
      classify g = .AlreadyExists ∨ classify g = .Unknown) ∧
    (∀ g, (CreateUser fault db u).2.2 = some g →
      classify g = .AlreadyExists ∨ classify g = .Unknown) := by
  refine ⟨?_, ?_, ?_, ?_, ?_, ?_⟩
  · rintro rfl
    exact ⟨by simp [CreateCourse, gormCreateCourse],
           by simp [CreateUser, gormCreateUser]⟩
  · rintro rfl ⟨r, hr, hor⟩
    have hany : db.courses.any (fun r => r.Id == c.Id || r.Name == c.Name) = true := by
      simp only [List.any_eq_true]
      exact ⟨r, hr, by rcases hor with h | h <;> simp [h]⟩
    simp [CreateCourse, gormCreateCourse, hany]
  · rintro rfl ⟨r, hr, hor⟩
    have hany : db.users.any (fun r => r.Id == u.Id || r.Email == u.Email) = true := by
      simp only [List.any_eq_true]
      exact ⟨r, hr, by rcases hor with h | h <;> simp [h]⟩
    simp [CreateUser, gormCreateUser, hany]
  · rintro e rfl hne
    exact ⟨by simp [CreateCourse, gormCreateCourse, hne],
           by simp [CreateUser, gormCreateUser, hne], rfl⟩
  · intro g hg
    cases fault with
    | some e =>
      by_cases he : e = StoreErr.duplicatedKey <;>
        simp [CreateCourse, gormCreateCourse, he] at hg <;>
        simp [← hg, classify]
    | none =>
      by_cases hany : db.courses.any (fun r => r.Id == c.Id || r.Name == c.Name) = true <;>
        simp [CreateCourse, gormCreateCourse, hany] at hg <;>
        simp [← hg, classify]
  · intro g hg
    cases fault with
    | some e =>
      by_cases he : e = StoreErr.duplicatedKey <;>
        simp [CreateUser, gormCreateUser, he] at hg <;>
        simp [← hg, classify]
    | none =>
      by_cases hany : db.users.any (fun r => r.Id == u.Id || r.Email == u.Email) = true <;>
        simp [CreateUser, gormCreateUser, hany] at hg <;>
        simp [← hg, classify]

/-- Witness for C2: on the concrete store a driver duplicate-key failure
yields `ErrAlreadyExist` from both creates. -/
theorem create_error_mapping_witness :
    (CreateCourse (some .duplicatedKey) sampleDB sampleCourse).2.2 =
      some .errAlreadyExist ∧
    (CreateUser (some .duplicatedKey) sampleDB sampleUser).2.2 =
      some .errAlreadyExist :=
  (create_error_mapping (some .duplicatedKey) sampleDB sampleCourse sampleUser).1 rfl

/-- Claim C3, counterexample: a store error matching neither sentinel is
NOT wrapped into a taxonomy value — the store-native error value itself
is what `CreateCourse` returns across the repository boundary. -/
theorem storeErr_crosses_boundary :
    (CreateCourse (some (.other 7)) ⟨[], []⟩ sampleCourse).2.2 =
      some (.storeErr (.other 7)) := by
  rfl

/-- The only error values a repository operation can produce: nothing,
one of the two mapped sentinels, or a raw store error passed through. -/
def errShape (err : Option GoErr) : Prop :=
  err = none ∨ err = some .errNotFound ∨ err = some .errAlreadyExist ∨
  ∃ e, err = some (.storeErr e)

theorem producedTaxonomy_of_errShape {err : Option GoErr}
    (h : errShape err) : producedTaxonomy err := by
  intro g hg
  rcases h with h | h | h | ⟨e, h⟩ <;> rw [h] at hg
  · exact absurd hg (by simp)
  · injection hg with hg2; rw [← hg2]; simp [classify]
  · injection hg with hg2; rw [← hg2]; simp [classify]
  · injection hg with hg2; rw [← hg2]; simp [classify]

theorem errShape_CreateCourse (fault : Option StoreErr) (db : DB) (c : Course) :
    errShape (CreateCourse fault db c).2.2 := by
  cases fault with
  | some e =>
    by_cases he : e = StoreErr.duplicatedKey <;>
      simp [errShape, CreateCourse, gormCreateCourse, he]
  | none =>
    by_cases hany : db.courses.any (fun r => r.Id == c.Id || r.Name == c.Name) = true <;>
      simp [errShape, CreateCourse, gormCreateCourse, hany]

theorem errShape_CreateUser (fault : Option StoreErr) (db : DB) (u : User) :
    errShape (CreateUser fault db u).2.2 := by
  cases fault with
  | some e =>
    by_cases he : e = StoreErr.duplicatedKey <;>
      simp [errShape, CreateUser, gormCreateUser, he]
  | none =>
    by_cases hany : db.users.any (fun r => r.Id == u.Id || r.Email == u.Email) = true <;>
      simp [errShape, CreateUser, gormCreateUser, hany]

theorem errShape_GetCourse (fault : Option StoreErr) (db : DB) (id : Uuid) :
    errShape (GetCourse fault db id).2.2 := by
  cases fault with
  | some e =>
    by_cases he : e = StoreErr.recordNotFound <;>
      simp [errShape, GetCourse, gormFirstCourse, he]
  | none =>
    cases h : db.courses.find? (fun r => r.Id == id) <;>
      simp [errShape, GetCourse, gormFirstCourse, h]

theorem errShape_GetCourses (fault : Option StoreErr) (db : DB) :
    errShape (GetCourses fault db).2.2 := by
  cases fault <;> simp [errShape, GetCourses, gormFindCourses]

theorem errShape_UpdateCourse (fault : Option StoreErr) (db : DB) (c : Course) :
    errShape (UpdateCourse fault db c).2.2 := by
  cases fault with
  | some e =>
    by_cases he : e = StoreErr.recordNotFound <;>
      simp [errShape, UpdateCourse, gormUpdatesCourse, he]
  | none =>
    by_cases h : (db.courses.filter (fun r => r.Id == c.Id)).length = 0 <;>
      simp [errShape, UpdateCourse, gormUpdatesCourse, h]

theorem errShape_DeleteCourse (fault : Option StoreErr) (db : DB) (id : Uuid) :
    errShape (DeleteCourse fault db id).2.2 := by
  cases fault with
  | some e =>
    by_cases he : e = StoreErr.recordNotFound <;>
      simp [errShape, DeleteCourse, gormDeleteCourse, he]
  | none =>
    by_cases h : (db.courses.filter (fun r => r.Id == id)).length = 0 <;>
      simp [errShape, DeleteCourse, gormDeleteCourse, h]

theorem errShape_GetUser (fault : Option StoreErr) (db : DB) (id : Uuid) :
    errShape (GetUser fault db id).2.2 := by
  cases fault with
  | some e =>
    by_cases he : e = StoreErr.recordNotFound <;>
      simp [errShape, GetUser, gormFirstUser, he]
  | none =>
    cases h : db.users.find? (fun r => r.Id == id) <;>
      simp [errShape, GetUser, gormFirstUser, h]

theorem errShape_Auth (fault : Option StoreErr) (db : DB) (em : String) :
    errShape (Auth fault db em).2.2 := by
  cases fault with
  | some e =>
    by_cases he : e = StoreErr.recordNotFound <;>
      simp [errShape, Auth, gormFirstUserByEmail, he]
  | none =>
    cases h : db.users.find? (fun r => r.Email == em) <;>
      simp [errShape, Auth, gormFirstUserByEmail, h]

theorem errShape_UpdateUser (fault : Option StoreErr) (db : DB) (u : User) :
    errShape (UpdateUser fault db u).2.2 := by
  cases fault with
  | some e =>
    by_cases he : e = StoreErr.recordNotFound <;>
      simp [errShape, UpdateUser, gormUpdatesUser, he]
  | none =>
    by_cases h : (db.users.filter (fun r => r.Id == u.Id)).length = 0 <;>
      simp [errShape, UpdateUser, gormUpdatesUser, h]

theorem errShape_DeleteUser (fault : Option StoreErr) (db : DB) (id : Uuid) :
    errShape (DeleteUser fault db id).2.2 := by
  cases fault with
  | some e =>
    by_cases he : e = StoreErr.recordNotFound <;>
      simp [errShape, DeleteUser, gormDeleteUser, he]
  | none =>
    by_cases h : (db.users.filter (fun r => r.Id == id)).length = 0 <;>
      simp [errShape, DeleteUser, gormDeleteUser, h]

/-- Claim C3, amended: every error any repository operation returns
classifies (through the callers' sentinel-matching switch) into
`NotFound`, `AlreadyExists` or `Unknown` — never the three reserved
Invalid kinds — and the operations map exactly the sentinel they check
(`duplicatedKey` for create, `recordNotFound` for the others); but a
store error matching neither checked sentinel is returned unchanged, so
the store-native error value itself does cross the repository boundary
(classifying as `Unknown` in the caller's hands). -/
theorem taxonomy_exhaustive (fault : Option StoreErr) (db : DB)
    (c : Course) (u : User) (id : Uuid) (em : String) :
    producedTaxonomy (CreateCourse fault db c).2.2 ∧
    producedTaxonomy (GetCourse fault db id).2.2 ∧
    producedTaxonomy (GetCourses fault db).2.2 ∧
    producedTaxonomy (UpdateCourse fault db c).2.2 ∧
    producedTaxonomy (DeleteCourse fault db id).2.2 ∧
    producedTaxonomy (CreateUser fault db u).2.2 ∧
    producedTaxonomy (GetUser fault db id).2.2 ∧
    producedTaxonomy (Auth fault db em).2.2 ∧
    producedTaxonomy (UpdateUser fault db u).2.2 ∧
    producedTaxonomy (DeleteUser fault db id).2.2 ∧
    (∀ e, fault = some e → ¬ e = StoreErr.duplicatedKey →
      (CreateCourse fault db c).2.2 = some (.storeErr e) ∧
      classify (.storeErr e) = .Unknown) ∧
    (∀ e, fault = some e → ¬ e = StoreErr.recordNotFound →
      (GetCourse fault db id).2.2 = some (.storeErr e) ∧
      classify (.storeErr e) = .Unknown) := by
  refine ⟨producedTaxonomy_of_errShape (errShape_CreateCourse fault db c),
    producedTaxonomy_of_errShape (errShape_GetCourse fault db id),
    producedTaxonomy_of_errShape (errShape_GetCourses fault db),
    producedTaxonomy_of_errShape (errShape_UpdateCourse fault db c),
    producedTaxonomy_of_errShape (errShape_DeleteCourse fault db id),
    producedTaxonomy_of_errShape (errShape_CreateUser fault db u),
    producedTaxonomy_of_errShape (errShape_GetUser fault db id),
    producedTaxonomy_of_errShape (errShape_Auth fault db em),
    producedTaxonomy_of_errShape (errShape_UpdateUser fault db u),
    producedTaxonomy_of_errShape (errShape_DeleteUser fault db id),
    ?_, ?_⟩
  · rintro e rfl hne
    exact ⟨by simp [CreateCourse, gormCreateCourse, hne], rfl⟩
  · rintro e rfl hne
    exact ⟨by simp [GetCourse, gormFirstCourse, hne], rfl⟩

/-- Witness for the amended C3 at a concrete generic store failure. -/
theorem taxonomy_exhaustive_witness :
    (CreateCourse (some (.other 3)) sampleDB sampleCourse).2.2 =
      some (.storeErr (.other 3)) ∧
    classify (.storeErr (.other 3)) = .Unknown :=
  (taxonomy_exhaustive (some (.other 3)) sampleDB sampleCourse sampleUser
    ⟨1⟩ "a@x.io").2.2.2.2.2.2.2.2.2.2.1 (.other 3) rfl (by decide)

/-- Claim C9: every repository operation returns exactly one of entity
and error non-nil — nil entity (or nil slice) with a non-nil error on
every failure path, and nil error on every success path — for every
store outcome (any fault and any state). -/
theorem result_error_exclusive (fault : Option StoreErr) (db : DB)
    (c : Course) (u : User) (id : Uuid) (em : String) :
    exclusive (CreateCourse fault db c).2 ∧
    exclusive (GetCourse fault db id).2 ∧
    exclusive (GetCourses fault db).2 ∧
    exclusive (UpdateCourse fault db c).2 ∧
    exclusive (DeleteCourse fault db id).2 ∧
    exclusive (CreateUser fault db u).2 ∧
    exclusive (GetUser fault db id).2 ∧
    exclusive (Auth fault db em).2 ∧
    exclusive (UpdateUser fault db u).2 ∧
    exclusive (DeleteUser fault db id).2 := by
  refine ⟨?_, ?_, ?_, ?_, ?_, ?_, ?_, ?_, ?_, ?_⟩
  · cases fault with
    | some e =>
      by_cases he : e = StoreErr.duplicatedKey <;>
        simp [exclusive, CreateCourse, gormCreateCourse, he]
    | none =>
      by_cases hy : db.courses.any (fun r => r.Id == c.Id || r.Name == c.Name) = true <;>
        simp [exclusive, CreateCourse, gormCreateCourse, hy]
  · cases fault with
    | some e =>
      by_cases he : e = StoreErr.recordNotFound <;>
        simp [exclusive, GetCourse, gormFirstCourse, he]
    | none =>
      cases h : db.courses.find? (fun r => r.Id == id) <;>
        simp [exclusive, GetCourse, gormFirstCourse, h]
  · cases fault <;> simp [exclusive, GetCourses, gormFindCourses]
  · cases fault with
    | some e =>
      by_cases he : e = StoreErr.recordNotFound <;>
        simp [exclusive, UpdateCourse, gormUpdatesCourse, he]
    | none =>
      by_cases h : (db.courses.filter (fun r => r.Id == c.Id)).length = 0 <;>
        simp [exclusive, UpdateCourse, gormUpdatesCourse, h]
  · cases fault with
    | some e =>
      by_cases he : e = StoreErr.recordNotFound <;>
        simp [exclusive, DeleteCourse, gormDeleteCourse, he]
    | none =>
      by_cases h : (db.courses.filter (fun r => r.Id == id)).length = 0 <;>
        simp [exclusive, DeleteCourse, gormDeleteCourse, h]
  · cases fault with
    | some e =>
      by_cases he : e = StoreErr.duplicatedKey <;>
        simp [exclusive, CreateUser, gormCreateUser, he]
    | none =>
      by_cases hy : db.users.any (fun r => r.Id == u.Id || r.Email == u.Email) = true <;>
        simp [exclusive, CreateUser, gormCreateUser, hy]
  · cases fault with
    | some e =>
      by_cases he : e = StoreErr.recordNotFound <;>
        simp [exclusive, GetUser, gormFirstUser, he]
    | none =>
      cases h : db.users.find? (fun r => r.Id == id) <;>
        simp [exclusive, GetUser, gormFirstUser, h]
  · cases fault with
    | some e =>
      by_cases he : e = StoreErr.recordNotFound <;>
        simp [exclusive, Auth, gormFirstUserByEmail, he]
    | none =>
      cases h : db.users.find? (fun r => r.Email == em) <;>
        simp [exclusive, Auth, gormFirstUserByEmail, h]
  · cases fault with
    | some e =>
      by_cases he : e = StoreErr.recordNotFound <;>
        simp [exclusive, UpdateUser, gormUpdatesUser, he]
    | none =>
      by_cases h : (db.users.filter (fun r => r.Id == u.Id)).length = 0 <;>
        simp [exclusive, UpdateUser, gormUpdatesUser, h]
  · cases fault with
    | some e =>
      by_cases he : e = StoreErr.recordNotFound <;>
        simp [exclusive, DeleteUser, gormDeleteUser, he]
    | none =>
      by_cases h : (db.users.filter (fun r => r.Id == id)).length = 0 <;>
        simp [exclusive, DeleteUser, gormDeleteUser, h]

theorem updateUser_post (db : DB) (u : User) :
    (UpdateUser none db u).1.users = db.users.map (fun r =>
      if r.Id == u.Id then { r with Email := u.Email, Password := u.Password }
      else r) := by
  by_cases h : (db.users.filter (fun r => r.Id == u.Id)).length = 0 <;>
    simp [UpdateUser, gormUpdatesUser, h]

theorem updateCourse_post (db : DB) (c : Course) :
    (UpdateCourse none db c).1.courses = db.courses.map (fun r =>
      if r.Id == c.Id then { r with Name := c.Name, URL := c.URL, Text := c.Text }
      else r) := by
  by_cases h : (db.courses.filter (fun r => r.Id == c.Id)).length = 0 <;>
    simp [UpdateCourse, gormUpdatesCourse, h]

/-- Claim C5: account update replaces only the email and password
columns of the matching row and never the identifier (and never the role);
rows with other identifiers are untouched; the same holds for course
update (name, url, text only). Consequently an update supplying the
already-stored secret — changing only the email — leaves every stored
secret untouched. -/
theorem update_selective_overwrite (db : DB) (u : User) (c : Course) :
    List.Forall₂ (fun r r2 : User =>
        r2.Id = r.Id ∧ r2.Role = r.Role ∧
        (r.Id = u.Id → r2.Email = u.Email ∧ r2.Password = u.Password) ∧
        (¬ r.Id = u.Id → r2 = r))
      db.users (UpdateUser none db u).1.users ∧
    List.Forall₂ (fun r r2 : Course =>
        r2.Id = r.Id ∧
        (r.Id = c.Id → r2.Name = c.Name ∧ r2.URL = c.URL ∧ r2.Text = c.Text) ∧
        (¬ r.Id = c.Id → r2 = r))
      db.courses (UpdateCourse none db c).1.courses ∧
    ((∀ r ∈ db.users, r.Id = u.Id → r.Password = u.Password) →
      List.Forall₂ (fun r r2 : User => r2.Password = r.Password)
        db.users (UpdateUser none db u).1.users) := by
  refine ⟨?_, ?_, ?_⟩
  · rw [updateUser_post, List.forall₂_map_right_iff, List.forall₂_same]
    intro r _
    by_cases h : r.Id = u.Id <;> simp [h]
  · rw [updateCourse_post, List.forall₂_map_right_iff, List.forall₂_same]
    intro r _
    by_cases h : r.Id = c.Id <;> simp [h]
  · intro hpw
    rw [updateUser_post, List.forall₂_map_right_iff, List.forall₂_same]
    intro r hr
    by_cases h : r.Id = u.Id <;> simp [h, (hpw r hr)]

/-- Witness for C5: updating the stored account with a new email and the
already-stored password leaves the stored password (and role, and id)
as they were. -/
theorem update_selective_overwrite_witness :
    List.Forall₂ (fun r r2 : User => r2.Password = r.Password)
      sampleDB.users
      (UpdateUser none sampleDB ⟨⟨5⟩, "new@x.io", "pw1", true⟩).1.users :=
  (update_selective_overwrite sampleDB ⟨⟨5⟩, "new@x.io", "pw1", true⟩
    sampleCourse).2.2 (by decide)

/-- Claim C6: listing all courses on an empty table returns the empty
sequence (never nil, never an error); in general it returns exactly the
stored rows — same length and same multiplicity for every course, so no
duplicates and no omissions — and its only failure is a raw store error,
which classifies as `Unknown`. -/
theorem getCourses_totality (fault : Option StoreErr) (db : DB) :
    (db.courses = [] → GetCourses none db = (db, some [], none)) ∧
    GetCourses none db = (db, some db.courses, none) ∧
    (∀ l, (GetCourses none db).2.1 = some l →
      l.length = db.courses.length ∧
      ∀ x : Course, l.count x = db.courses.count x) ∧
    (∀ g, (GetCourses fault db).2.2 = some g →
      ∃ e, fault = some e ∧ g = .storeErr e ∧ classify g = .Unknown) := by
  refine ⟨?_, ?_, ?_, ?_⟩
  · intro h; simp [GetCourses, gormFindCourses, h]
  · simp [GetCourses, gormFindCourses]
  · intro l hl
    simp [GetCourses, gormFindCourses] at hl
    rw [← hl]
    exact ⟨rfl, fun x => rfl⟩
  · intro g hg
    cases fault with
    | some e =>
      simp [GetCourses, gormFindCourses] at hg
      exact ⟨e, rfl, by rw [← hg], by rw [← hg]; rfl⟩
    | none => simp [GetCourses, gormFindCourses] at hg

/-- Witness for C6: the empty store lists to the empty sequence with no
error. -/
theorem getCourses_totality_witness :
    GetCourses none ⟨[], []⟩ = (⟨[], []⟩, some [], none) :=
  (getCourses_totality none ⟨[], []⟩).1 rfl

/-- Claim C8: a successful account update returns the caller's input
value itself, not a row re-read from the store — in particular the
returned role flag is whatever the caller supplied — while the stored
row keeps its old role, since the update never writes the role column. -/
theorem update_returns_input (db : DB) (u : User)
    (hs : (UpdateUser none db u).2.2 = none) :
    (UpdateUser none db u).2.1 = some u ∧
    List.Forall₂ (fun r r2 : User => r2.Role = r.Role)
      db.users (UpdateUser none db u).1.users := by
  constructor
  · by_cases h : (db.users.filter (fun r => r.Id == u.Id)).length = 0
    · exact absurd hs (by simp [UpdateUser, gormUpdatesUser, h])
    · simp [UpdateUser, gormUpdatesUser, h]
  · rw [updateUser_post, List.forall₂_map_right_iff, List.forall₂_same]
    intro r _
    by_cases h : r.Id = u.Id <;> simp [h]

/-- Witness for C8: updating the stored account (role true) with an
input carrying role false succeeds and returns role false — the input —
while the stored row keeps role true. -/
theorem update_returns_input_witness :
    (UpdateUser none sampleDB ⟨⟨5⟩, "n@x.io", "pw2", false⟩).2.1 =
      some ⟨⟨5⟩, "n@x.io", "pw2", false⟩ ∧
    List.Forall₂ (fun r r2 : User => r2.Role = r.Role)
      sampleDB.users
      (UpdateUser none sampleDB ⟨⟨5⟩, "n@x.io", "pw2", false⟩).1.users :=
  update_returns_input sampleDB ⟨⟨5⟩, "n@x.io", "pw2", false⟩ (by decide)

end Dip
